import Mathlib

/-!
Shallow embedding of the disk-backed multimap `seqwish::dmultimap`
(src/src/dmultimap.hpp).  The backing data file is modelled as a list
of bytes (naturals below 256); fixed-width keys and values are written
little-endian, as `ofstream::write` does on the x86 targets the code
runs on.  Stream reads past the end of the file (which fail and leave
the destination indeterminate) and failed C assertions are modelled as
`none`.  The two external collaborators that are not under src —
the bsort external sorter and the sdsl compressed bit vector with its
select support — are modelled at their interface: the sorter per the
spec (records rewritten non-decreasing by key) and sdsl select per the
documented sdsl contract (the i-th set bit with i counted from 1).
-/

/-- Little-endian encoding of `x` into `len` bytes: the byte image of a
fixed-width unsigned integer as `append` writes it. -/
def encodeLE : Nat → Nat → List Nat
  | 0, _ => []
  | len + 1, x => x % 256 :: encodeLE len (x / 256)

/-- Little-endian decoding of a byte list: the integer read back by
`ifstream::read` into a fixed-width unsigned variable. -/
def decodeLE : List Nat → Nat
  | [] => 0
  | b :: bs => b + 256 * decodeLE bs

/-- `chunks_go count rs bs` splits off `count` leading blocks of `rs`
bytes each. -/
def chunks_go : Nat → Nat → List Nat → List (List Nat)
  | 0, _, _ => []
  | n + 1, rs, bs => bs.take rs :: chunks_go n rs (bs.drop rs)

/-- The record-size byte blocks of the backing file, one per complete
record. -/
def chunks (rs : Nat) (bs : List Nat) : List (List Nat) :=
  chunks_go (bs.length / rs) rs bs

/-- Concatenation of a list of byte blocks back into a file. -/
def flat : List (List Nat) → List Nat
  | [] => []
  | c :: cs => c ++ flat cs

/-- The records of the backing file: the key decoded from the first
`kk` bytes of each block, the value kept as its raw `vv` bytes. -/
def records_of (kk vv : Nat) (bs : List Nat) : List (Nat × List Nat) :=
  (chunks (kk + vv) bs).map (fun c => (decodeLE (c.take kk), (c.drop kk).take vv))

/-- The fields of a `dmultimap<Key, Value>` instance that the claims
touch.  `K` and `V` are the byte sizes of Key and Value; `file` is the
byte contents of the backing data file; `nullvalue` holds whatever
bytes the constructor loop left in the sentinel (see
`dmultimap.init_nullvalue`: the loop counter is read uninitialized). -/
structure DState where
  K : Nat
  V : Nat
  file : List Nat
  sorted : Bool
  indexed : Bool
  max_key : Nat
  key_cbv : List Bool
  nullvalue : List Nat
  deriving DecidableEq

/-- The index companion file written by `save` and read by `load`:
magic tag, version, and the size-prefixed members followed by the
serialized compressed bit vector (with its select support). -/
structure IndexFile where
  magic : String
  version : Nat
  record_size : Nat
  n_records : Nat
  max_key : Nat
  key_cbv : List Bool
  deriving DecidableEq

/-- Positions of the set bits of a bit vector. -/
def ones_positions (bv : List Bool) : List Nat :=
  (List.range bv.length).filter (fun i => bv.getD i false)

/-- Model of the sdsl `sd_vector select_1_type` collaborator over the
compressed key-starts bit vector: `select1 bv i` is the position of the
i-th set bit with i counted FROM 1, which is the documented sdsl
contract.  Queries outside the contract (i = 0, or fewer than i set
bits in the vector) are undefined behaviour in sdsl and are modelled as
`none`. -/
def select1 (bv : List Bool) (i : Nat) : Option Nat :=
  if i = 0 then none else (ones_positions bv).get? (i - 1)

/-- Comparison key of a record block: its byte-decoded key prefix. -/
def rec_key (kk : Nat) (c : List Nat) : Nat := decodeLE (c.take kk)

/-- Insertion step of the sorter model: place a record before the first
record whose key is not smaller (stable for equal keys). -/
def insert_record (kk : Nat) (c : List Nat) : List (List Nat) → List (List Nat)
  | [] => [c]
  | d :: ds =>
    if rec_key kk c ≤ rec_key kk d then c :: d :: ds else d :: insert_record kk c ds

/-- Insertion sort of record blocks by key. -/
def sort_records (kk : Nat) : List (List Nat) → List (List Nat)
  | [] => []
  | c :: cs => insert_record kk c (sort_records kk cs)

/-- Modelled from the spec: the external sorter collaborator (bsort) is
not under src; per the spec interface it rewrites the file in place so
that the fixed-size records are non-decreasing by key, ties broken
arbitrarily.  We realize that contract with a stable insertion sort on
the record blocks. -/
def sort_file (kk rs : Nat) (bs : List Nat) : List Nat :=
  flat (sort_records kk (chunks rs bs))

namespace dmultimap

/-- The nullvalue zeroing loop of `init()`:
`for (size_t i; i < sizeof(Value); ++i) ((uint8_t*)&nullvalue)[i] = 0;`.
The loop counter i is read uninitialized; its indeterminate starting
contents are made an explicit parameter `i0`.  Bytes at positions below
`i0` keep their previous (equally indeterminate) contents. -/
def init_nullvalue (i0 : Nat) (initial : List Nat) : List Nat :=
  (List.range initial.length).zipWith (fun j b => if i0 ≤ j then 0 else b) initial

/-- `append(k, v)`: write the key bytes then the value bytes at the end
of the backing file; every append clears the sorted flag. -/
def append (s : DState) (k : Nat) (v : List Nat) : DState :=
  { s with file := s.file ++ encodeLE s.K k ++ v, sorted := false }

/-- `record_count()`: the byte size of the backing file divided by the
record size; the assertion demands that the size is an exact multiple
of the record size. -/
def record_count (s : DState) : Option Nat :=
  if s.file.length % (s.K + s.V) = 0 then some (s.file.length / (s.K + s.V)) else none

/-- `sort()`: a no-op when the sorted flag is already set, otherwise
hand the whole file to the external sorter and set the flag. -/
def sort (s : DState) : DState :=
  if s.sorted = true then s
  else { s with file := sort_file s.K (s.K + s.V) s.file, sorted := true }

/-- The gap loop of `pad()`:
`while (prev+1 < curr) { append(prev, nullvalue); ++prev; }`.
Note that the source appends key `prev` (a key already seen) rather
than `prev + 1`.  The first argument is fuel bounding the iteration
count; the loop runs at most `curr` times. -/
def pad_while_go (nv : List Nat) : Nat → Nat → Nat → List (Nat × List Nat)
  | 0, _, _ => []
  | fuel + 1, prev, curr =>
    if prev + 1 < curr then (prev, nv) :: pad_while_go nv fuel (prev + 1) curr else []

/-- The gap loop of `pad()` entered with the given `prev` and `curr`. -/
def pad_while (nv : List Nat) (prev curr : Nat) : List (Nat × List Nat) :=
  pad_while_go nv curr prev curr

/-- The per-record body of `pad()` over the records it reads: for each
record (curr, value), run the gap loop from `prev`, then append the
record itself back to the same file (the source calls
`append(curr, value)` for every record it reads), and set
`prev := curr`.  Returns the list of appended records and the
`missing_records` flag. -/
def pad_loop (nv : List Nat) : List (Nat × List Nat) → Nat → List (Nat × List Nat) × Bool
  | [], _ => ([], false)
  | r :: rest, prev =>
    let gap := pad_while nv prev r.1
    let tl := pad_loop nv rest r.1
    (gap ++ r :: tl.1, (!gap.isEmpty || tl.2))

/-- `pad()`: asserts the sorted flag, then iterates
`for (size_t i = 0; i < n_records; i += record_size)` — a counter that
strides by record_size against a bound expressed in records, so only
ceil(n_records / record_size) records are read, one per iteration —
appending through `append` (which clears the sorted flag), and
re-sorts only when some gap record was appended. -/
def pad (s : DState) : Option DState :=
  if s.sorted = true then
    match record_count s with
    | none => none
    | some n =>
      let rs := s.K + s.V
      let niter := (n + rs - 1) / rs
      let recs := (records_of s.K s.V s.file).take niter
      let pr := pad_loop s.nullvalue recs 0
      let file2 := s.file ++ flat (pr.1.map (fun r => encodeLE s.K r.1 ++ r.2))
      let s2 : DState :=
        { s with file := file2, sorted := if pr.1.isEmpty then s.sorted else false }
      some (if pr.2 then sort s2 else s2)
  else none

/-- `key_chunk kk bs r` is the integer decoded from the r-th
consecutive kk-byte read of the file.  The `index()` scan issues
`reader.read((char*)&curr, sizeof(Key))` back to back and never skips
the value bytes, so read number r starts at byte offset r * kk. -/
def key_chunk (kk : Nat) (bs : List Nat) (r : Nat) : Nat :=
  decodeLE ((bs.drop (r * kk)).take kk)

/-- One iteration of the `index()` key-starts loop at counter value
i = 1 + t * record_size: read the next key-size chunk (chunk t+1) into
curr, and when it differs from `last`, set bit i and update `last`.
The third accumulator component tracks the last value read into curr
(`none` while curr is still uninitialized). -/
def scan_step (kk rs : Nat) (bs : List Nat) (acc : List Bool × Nat × Option Nat) (t : Nat) :
    List Bool × Nat × Option Nat :=
  let curr := key_chunk kk bs (t + 1)
  if curr ≠ acc.2.1 then (acc.1.set (1 + t * rs) true, curr, some curr)
  else (acc.1, acc.2.1, some curr)

/-- `index()`: sort, pad, then scan for key starts with
`for (size_t i = 1; i < n_records; i += record_size)` — again a
byte-stride counter against a record-count bound, performing
ceil((n_records - 1) / record_size) reads — set `max_key` to the final
contents of curr, build the compressed bit vector and its select
support, and set the indexed flag.  An empty store (where the write
`key_bv[0] = 1` is out of range and the first key read fails) and a
scan with zero iterations (where curr is copied uninitialized into
`max_key`) are modelled as failure. -/
def index (s : DState) : Option DState :=
  let s1 := sort s
  match pad s1 with
  | none => none
  | some s2 =>
    match record_count s2 with
    | none => none
    | some n =>
      if n = 0 then none
      else
        let rs := s2.K + s2.V
        let bv0 := (List.replicate n false).set 0 true
        let start := key_chunk s2.K s2.file 0
        let niter := (n + rs - 2) / rs
        let res := (List.range niter).foldl (scan_step s2.K rs s2.file) (bv0, start, none)
        match res.2.2 with
        | none => none
        | some mk => some { s2 with key_cbv := res.1, max_key := mk, indexed := true }

/-- `nth_value(n)`: the value bytes at record index n, a seek to byte
offset n * record_size + sizeof(Key) followed by a read. -/
def nth_value (s : DState) (n : Nat) : List Nat :=
  (s.file.drop (n * (s.K + s.V) + s.K)).take s.V

/-- `nth_key(n)`: the key at record index n.  A read past the end of
the file fails and leaves the destination indeterminate; that case is
modelled as `none`. -/
def nth_key (s : DState) (n : Nat) : Option Nat :=
  if n * (s.K + s.V) + s.K ≤ s.file.length then
    some (decodeLE ((s.file.drop (n * (s.K + s.V))).take s.K))
  else none

/-- The `for ( ; i < j; ++i) values.push_back(nth_value(i));` loop of
`values()`.  The first argument is fuel; the loop runs at most j
times. -/
def values_loop_go (s : DState) : Nat → Nat → Nat → List (List Nat)
  | 0, _, _ => []
  | fuel + 1, i, j =>
    if i < j then nth_value s i :: values_loop_go s fuel (i + 1) j else []

/-- The collection loop of `values()` from i up to j. -/
def values_loop (s : DState) (i j : Nat) : List (List Nat) :=
  values_loop_go s j i j

/-- `values(key)`: i = key_cbv_select(key), then
j = (key < max_key ? key_cbv_select(key + 1) : record_count()), then
collect nth_value over [i, j).  The source performs no indexed-state
check and no key-range check. -/
def values (s : DState) (key : Nat) : Option (List (List Nat)) :=
  match select1 s.key_cbv key with
  | none => none
  | some i =>
    match (if key < s.max_key then select1 s.key_cbv (key + 1) else record_count s) with
    | none => none
    | some j => some (values_loop s i j)

/-- The supported index-file format version. -/
def OUTPUT_VERSION : Nat := 1

/-- `save()`: asserts `max_key && indexed`, then writes the 9-byte
magic tag, the version, record_size, record_count(), max_key, and the
serialized compressed bit vector with its select support. -/
def save (s : DState) : Option IndexFile :=
  if s.max_key ≠ 0 ∧ s.indexed = true then
    match record_count s with
    | none => none
    | some n =>
      some { magic := "dmultimap", version := OUTPUT_VERSION, record_size := s.K + s.V,
             n_records := n, max_key := s.max_key, key_cbv := s.key_cbv }
  else none

/-- `load(f)`: on an instance whose data filename is already set (the
`dmultimap(f)` constructor; with an empty filename the initial
`open_reader()` call fails its assertion outright), read the magic
bytes (never checked), then check version == OUTPUT_VERSION, the
record size, n_records == record_count(), and finally
max_key == nth_key(n_records) — note that this last read is at record
index n_records, one PAST the final record of the data file.  The
loaded select support is never relinked to the bit vector and the
indexed flag is never set. -/
def load (s : DState) (idx : IndexFile) : Option DState :=
  if idx.version = OUTPUT_VERSION then
    if idx.record_size = s.K + s.V then
      match record_count s with
      | none => none
      | some n =>
        if idx.n_records = n then
          match nth_key s idx.n_records with
          | none => none
          | some k =>
            if idx.max_key = k then
              some { s with max_key := idx.max_key, key_cbv := idx.key_cbv }
            else none
        else none
    else none
  else none

end dmultimap

/-- The claim-side query of C5, following the words of the spec: i is
the position of the key-th set bit counted 0-indexed, j likewise for
key + 1 when key < max_key, else record_count(); the values of the
record range [i, j) are returned in on-disk order. -/
def values_spec_zero_indexed (s : DState) (key : Nat) : Option (List (List Nat)) :=
  match (ones_positions s.key_cbv).get? key with
  | none => none
  | some i =>
    match (if key < s.max_key then (ones_positions s.key_cbv).get? (key + 1)
           else dmultimap.record_count s) with
    | none => none
    | some j => some ((List.range' i (j - i)).map (dmultimap.nth_value s))

/-- A fresh one-byte-key, one-byte-value instance (the uint8_t template
instantiation); the indeterminate nullvalue byte is taken as 0, the
intended sentinel. -/
def byte_instance : DState :=
  { K := 1, V := 1, file := [], sorted := false, indexed := false,
    max_key := 0, key_cbv := [], nullvalue := [0] }

/-- C1 input: the store after appending (0,5) and then (1,6). -/
def c1_appended : DState :=
  dmultimap.append (dmultimap.append byte_instance 0 [5]) 1 [6]

/-- C2 input: a sorted store holding the records (0,5) and (2,7). -/
def c2_store : DState := { byte_instance with file := [0, 5, 2, 7], sorted := true }

/-- The store `pad()` actually produces from `c2_store`: only record 0
was read (the loop strides by record_size), a duplicate of it was
appended, and the gap at key 1 was never filled. -/
def c2_padded : DState := { byte_instance with file := [0, 5, 2, 7, 0, 5] }

/-- C3 input: an already-dense sorted store holding the single record
(0,5). -/
def c3_store : DState := { byte_instance with file := [0, 5], sorted := true }

/-- The store `pad()` actually produces from `c3_store`: a duplicate of
the record was appended and the sorted flag was cleared without a
re-sort. -/
def c3_padded : DState := { byte_instance with file := [0, 5, 0, 5] }

/-- C4 input: a sorted, densified store holding the records (0,5) and
(1,6). -/
def c4_store : DState := { byte_instance with file := [0, 5, 1, 6], sorted := true }

/-- C5 input: an indexed instance over the sorted dense records (0,5),
(0,6), (1,7), carrying the key-starts bit vector a correct build of
that store gives (bits at the first records of keys 0 and 1). -/
def c5_indexed : DState :=
  { K := 1, V := 1, file := [0, 5, 0, 6, 1, 7], sorted := true, indexed := true,
    max_key := 1, key_cbv := [true, false, true], nullvalue := [0] }

/-- C6 input: an indexed instance over the sorted dense records (0,5)
and (1,6) with its correct key-starts bit vector. -/
def c6_indexed : DState :=
  { K := 1, V := 1, file := [0, 5, 1, 6], sorted := true, indexed := true,
    max_key := 1, key_cbv := [true, true], nullvalue := [0] }

/-- C7 witness input: a backing file of 5 bytes, not a multiple of the
record size 2. -/
def c7_store : DState := { byte_instance with file := [0, 5, 1, 6, 9] }

/-- C8 input: an indexed two-record instance over the data file of
`c6_indexed`. -/
def c8_data : DState :=
  { byte_instance with file := [0, 5, 1, 6], sorted := true, indexed := true, max_key := 1, key_cbv := [true, true] }

/-- The index file `save()` writes for `c8_data`. -/
def c8_index_file : IndexFile :=
  { magic := "dmultimap", version := 1, record_size := 2, n_records := 2,
    max_key := 1, key_cbv := [true, true] }

/-- C10 witness input: an indexed instance whose max_key is 0. -/
def c10_state : DState := { byte_instance with indexed := true }

/-- Claim C1 (code_bug evaluation): appending (0,5) then (1,6) and
calling `index()` does not give the claimed round trip.  `pad()`
re-appends a copy of record 0 without re-sorting, and the key-starts
scan strides its counter by record_size while reading key-size chunks
back to back, so the resulting structure answers `values(1)` with
[[5]] — the value appended under key 0 — instead of the appended
multiset [[6]]. -/
theorem values_roundtrip_violation :
    (dmultimap.index c1_appended).bind (fun st => dmultimap.values st 1) = some [[5]] ∧
    (dmultimap.index c1_appended).bind (fun st => dmultimap.values st 1) ≠ some [[6]] := by
  decide

/-- Claim C2 (code_bug evaluation): on the sorted store with records
(0,5) and (2,7), `pad()` reads only record 0 (its loop strides by
record_size against a record-count bound), appends a duplicate of it,
and never fills the gap at key 1: afterwards the store holds keys
[0, 2, 0], so key 1 in [0, max_key] still has no record and
the density invariant fails. -/
theorem pad_density_violation :
    dmultimap.pad c2_store = some c2_padded ∧
    (records_of 1 1 c2_padded.file).map Prod.fst = [0, 2, 0] ∧
    2 ∈ (records_of 1 1 c2_padded.file).map Prod.fst ∧
    1 ∉ (records_of 1 1 c2_padded.file).map Prod.fst := by
  decide

/-- Claim C3 (code_bug evaluation): on the already-dense sorted
single-record store (0,5), `pad()` appends a duplicate of the record
(record count 1 to 2) and clears the sorted flag without re-sorting,
and a second `pad()` call then fails its sorted-flag assertion — far
from the claimed zero appends and no observable change. -/
theorem pad_not_idempotent :
    dmultimap.pad c3_store = some c3_padded ∧
    c3_store.file.length = 2 ∧ c3_padded.file.length = 4 ∧
    dmultimap.pad c3_padded = none := by
  decide

/-- Claim C4 (code_bug evaluation): on the sorted, densified store with
records (0,5) and (1,6), `index()` first lets `pad()` append a spurious
copy of record 0, then scans with a record_size-stride counter while
reading consecutive key-size chunks, so it performs 2 key reads for the
3 records, reads value bytes as keys, and leaves max_key = 5 (a value
byte) with a length-3 key-starts vector — while the key of the last
record of the input store is 1. -/
theorem index_scan_maxkey_violation :
    (dmultimap.index c4_store).map (fun st => (st.max_key, st.key_cbv)) =
      some (5, [true, true, false]) ∧
    ((records_of 1 1 c4_store.file).map Prod.fst).getLast? = some 1 := by
  decide

/-- Claim C5 (counterexample): on an indexed instance over the records
(0,5), (0,6), (1,7) with key-starts bits [1,0,1] and max_key = 1,
`values(1)` returns the whole range [[5],[6],[7]] because
`key_cbv_select` is the sdsl select, which counts set bits from 1 —
the claimed query with a 0-indexed select would return [[7]]. -/
theorem values_select_zero_indexed_counterexample :
    dmultimap.values c5_indexed 1 = some [[5], [6], [7]] ∧
    values_spec_zero_indexed c5_indexed 1 = some [[7]] ∧
    dmultimap.values c5_indexed 1 ≠ values_spec_zero_indexed c5_indexed 1 := by
  decide

/-- Helper for the C5 characterization: the values collection loop with
enough fuel produces exactly the nth_value map over [i, j). -/
theorem values_loop_go_eq (s : DState) :
    ∀ (fuel i j : Nat), j - i ≤ fuel →
      dmultimap.values_loop_go s fuel i j =
        (List.range' i (j - i)).map (dmultimap.nth_value s) := by
  intro fuel
  induction fuel with
  | zero =>
    intro i j h
    have h0 : j - i = 0 := Nat.le_zero.mp h
    rw [h0]
    rfl
  | succ fuel ih =>
    intro i j h
    unfold dmultimap.values_loop_go
    by_cases hij : i < j
    · rw [if_pos hij]
      have h2 : j - (i + 1) ≤ fuel := by omega
      rw [ih (i + 1) j h2]
      have h3 : j - i = (j - (i + 1)) + 1 := by omega
      rw [h3]
      rfl
    · rw [if_neg hij]
      have h0 : j - i = 0 := by omega
      rw [h0]
      rfl

/-- Helper for the C5 characterization, stated for the loop entry
point. -/
theorem values_loop_eq (s : DState) (i j : Nat) :
    dmultimap.values_loop s i j = (List.range' i (j - i)).map (dmultimap.nth_value s) :=
  values_loop_go_eq s j i j (Nat.sub_le j i)

/-- Claim C5 (amended): for every state whose two select queries
succeed, `values(key)` returns the values of the contiguous record
range [i, j) in on-disk order, where i = select(key) is the position of
the key-th set bit counted FROM 1 (the sdsl contract, i.e. the
(key-1)-th 0-indexed set bit), j = select(key+1) (again 1-indexed) when
key < max_key, and j = record_count() otherwise — not a select query
for max_key + 1. -/
theorem values_range_characterization (s : DState) (key i j : Nat)
    (h1 : select1 s.key_cbv key = some i)
    (h2 : (if key < s.max_key then select1 s.key_cbv (key + 1)
           else dmultimap.record_count s) = some j) :
    dmultimap.values s key = some ((List.range' i (j - i)).map (dmultimap.nth_value s)) := by
  unfold dmultimap.values
  simp only [h1, h2]
  exact congrArg some (values_loop_eq s i j)

/-- Witness for the C5 characterization at a concrete indexed
instance. -/
theorem values_range_characterization_witness :
    dmultimap.values c5_indexed 1 =
      some ((List.range' 0 (3 - 0)).map (dmultimap.nth_value c5_indexed)) :=
  values_range_characterization c5_indexed 1 0 3 (by decide) (by decide)

/-- Claim C6 (counterexample): on an indexed instance with
max_key = 1, the out-of-range query `values(2)` does not fail: it
silently returns some [[6]], the run of key 1, because the source has
no key-range check and select(2) is answerable on a two-bit vector. -/
theorem values_out_of_range_silent :
    c6_indexed.max_key < 2 ∧ dmultimap.values c6_indexed 2 = some [[6]] := by
  decide

/-- Helper for C6: `values` written with its loop replaced by the
explicit range map, so that the state only ever appears under its
projections. -/
theorem values_unfolded (s : DState) (key : Nat) :
    dmultimap.values s key =
      match select1 s.key_cbv key with
      | none => none
      | some i =>
        match (if key < s.max_key then select1 s.key_cbv (key + 1)
               else dmultimap.record_count s) with
        | none => none
        | some j => some ((List.range' i (j - i)).map (dmultimap.nth_value s)) := by
  unfold dmultimap.values
  cases select1 s.key_cbv key with
  | none => rfl
  | some i =>
    cases (if key < s.max_key then select1 s.key_cbv (key + 1)
           else dmultimap.record_count s) with
    | none => rfl
    | some j => exact congrArg some (values_loop_eq s i j)

/-- Claim C6 (amended): `values()` performs no indexed-state check at
all — its result is independent of the indexed flag (there is no
assertion on it in the source, and `load()` never even sets the flag),
and an out-of-range key is not failed loudly either. -/
theorem values_ignores_indexed_flag (s : DState) (b : Bool) (key : Nat) :
    dmultimap.values { s with indexed := b } key = dmultimap.values s key := by
  rw [values_unfolded, values_unfolded]
  rfl

/-- Witness for the C6 amended theorem at a concrete instance. -/
theorem values_ignores_indexed_flag_witness :
    dmultimap.values { c6_indexed with indexed := false } 1 =
      dmultimap.values c6_indexed 1 :=
  values_ignores_indexed_flag c6_indexed false 1

/-- Claim C7: `record_count()` returns the backing-file size divided by
record_size exactly when the size is a multiple of record_size, and
fails its assertion otherwise. -/
theorem record_count_spec (s : DState) (_h : 0 < s.K + s.V) :
    ((s.K + s.V) ∣ s.file.length →
      dmultimap.record_count s = some (s.file.length / (s.K + s.V))) ∧
    (¬ (s.K + s.V) ∣ s.file.length → dmultimap.record_count s = none) := by
  constructor
  · intro hd
    unfold dmultimap.record_count
    rw [if_pos (Nat.mod_eq_zero_of_dvd hd)]
  · intro hd
    unfold dmultimap.record_count
    rw [if_neg (fun hmod => hd (Nat.dvd_of_mod_eq_zero hmod))]

/-- Witness for C7: a 5-byte file is not a whole number of 2-byte
records, so record_count fails. -/
theorem record_count_spec_witness : dmultimap.record_count c7_store = none :=
  (record_count_spec c7_store (by decide)).2 (by decide)

/-- Helper for C8: whenever `record_count()` has just returned n, the
read `nth_key(n)` is one record past the end of the data file and
fails. -/
theorem nth_key_past_end (s : DState) (n : Nat) (hk : 0 < s.K)
    (hn : dmultimap.record_count s = some n) : dmultimap.nth_key s n = none := by
  unfold dmultimap.record_count at hn
  by_cases hmod : s.file.length % (s.K + s.V) = 0
  · rw [if_pos hmod] at hn
    injection hn with hq
    have hdvd : (s.K + s.V) ∣ s.file.length := Nat.dvd_of_mod_eq_zero hmod
    have hlen : s.file.length = n * (s.K + s.V) := by
      rw [← hq, Nat.div_mul_cancel hdvd]
    have hnle : ¬ (n * (s.K + s.V) + s.K ≤ s.file.length) := by
      rw [hlen]
      set m := n * (s.K + s.V)
      omega
    unfold dmultimap.nth_key
    rw [if_neg hnle]
  · rw [if_neg hmod] at hn
    exact absurd hn (by simp)

/-- Claim C8 (code_bug): `load()` can never succeed on an index file
that matches its data file.  Its final assertion compares the stored
max_key against `nth_key(n_records)`, but the last record of the data
file has index n_records - 1, so once the record-count check has
passed, that read is past the end of the file and the assertion
fails. -/
theorem load_always_fails (s : DState) (idx : IndexFile) (hk : 0 < s.K) :
    dmultimap.load s idx = none := by
  by_cases hv : idx.version = dmultimap.OUTPUT_VERSION
  · by_cases hr : idx.record_size = s.K + s.V
    · cases hrc : dmultimap.record_count s with
      | none => simp [dmultimap.load, hv, hr, hrc]
      | some n =>
        by_cases hnr : idx.n_records = n
        · have hnk : dmultimap.nth_key s n = none := nth_key_past_end s n hk hrc
          simp [dmultimap.load, hv, hr, hrc, hnr, hnk]
        · simp [dmultimap.load, hv, hr, hrc, hnr]
    · simp [dmultimap.load, hr]
  · simp [dmultimap.load, hv]

/-- Witness for C8: the index file `save()` writes for the indexed
two-record instance `c8_data` is exactly `c8_index_file`, and loading
it over the very same data file fails. -/
theorem load_always_fails_witness :
    dmultimap.save c8_data = some c8_index_file ∧
    dmultimap.load c8_data c8_index_file = none :=
  ⟨rfl, load_always_fails c8_data c8_index_file (by decide)⟩

/-- Claim C9 (code_bug evaluation): with sizeof(Value) = 1, when the
uninitialized loop counter of the nullvalue loop happens to start at 1
the sentinel byte keeps its indeterminate prior contents (here 5)
instead of being zeroed; only a counter starting at 0 — the intended
behaviour — yields the all-zero sentinel. -/
theorem init_nullvalue_uninitialized :
    dmultimap.init_nullvalue 1 [5] = [5] ∧
    dmultimap.init_nullvalue 0 [5] = [0] ∧
    dmultimap.init_nullvalue 1 [5] ≠ [0] := by
  decide

/-- Claim C10: `save()` asserts `max_key && indexed` on entry: a
successful save implies the instance is indexed with nonzero max_key,
and every indexed instance whose max_key is 0 fails the assertion and
writes nothing. -/
theorem save_requires_indexed_and_nonzero_max_key (s : DState) :
    (dmultimap.save s ≠ none → s.indexed = true ∧ s.max_key ≠ 0) ∧
    (s.indexed = true → s.max_key = 0 → dmultimap.save s = none) := by
  constructor
  · intro h
    by_cases hc : s.max_key ≠ 0 ∧ s.indexed = true
    · exact ⟨hc.2, hc.1⟩
    · unfold dmultimap.save at h
      rw [if_neg hc] at h
      exact absurd rfl h
  · intro hi hm
    unfold dmultimap.save
    rw [if_neg (fun hc => hc.1 hm)]

/-- Witness for C10: a concrete indexed instance with max_key = 0 on
which save fails. -/
theorem save_requires_indexed_and_nonzero_max_key_witness :
    dmultimap.save c10_state = none :=
  (save_requires_indexed_and_nonzero_max_key c10_state).2 rfl rfl
